import Mathlib

/-!
Verification of the Bookmarker browser-extension popup (src/popup.ts) and its
background worker. The popup keeps a flat index of bookmark folders, answers
substring queries over it, tracks a selection set and an existing-bookmark set,
coalesces renders to one DOM reconciliation per animation frame, and dispatches
create-bookmarks / create-folder messages to the background worker. Every
definition below is a shallow embedding of the corresponding TypeScript
function; strings are Lean strings, JS Sets are insertion-ordered duplicate-free
lists, and the DOM result list is a list of row views.
-/

namespace Bookmarker

/-- Whitespace test used by the embedding of the JS string trim method. -/
def jsWhitespaceChar (c : Char) : Bool :=
  c = ' ' || c = '\t' || c = '\n' || c = '\r' || c = '\x0b' || c = '\x0c'

/-- Embedding of the JS trim method: drop whitespace from both ends. -/
def jsTrim (s : String) : String :=
  String.mk (((s.data.dropWhile jsWhitespaceChar).reverse.dropWhile jsWhitespaceChar).reverse)

/-- ASCII lower-casing of one character, as toLowerCase acts on ASCII input. -/
def jsLowerChar (c : Char) : Char :=
  if 'A' ≤ c && c ≤ 'Z' then Char.ofNat (c.toNat + 32) else c

/-- Embedding of the JS toLowerCase method (ASCII range). -/
def jsToLower (s : String) : String :=
  String.mk (s.data.map jsLowerChar)

/-- Contiguous-sublist test on character lists, embedding String.includes. -/
def listContainsSub (hay needle : List Char) : Bool :=
  match hay with
  | [] => needle.isEmpty
  | _ :: t => needle.isPrefixOf hay || listContainsSub t needle

/-- Embedding of the JS String.includes method: contiguous substring test. -/
def jsIncludes (s sub : String) : Bool :=
  listContainsSub s.data sub.data

/-- Embedding of the JS logical-or on strings: empty string is falsy. -/
def jsOr (a b : String) : String :=
  if a = "" then b else a

/-- First non-empty of three strings, the shape of the title fallback chain. -/
def firstNonempty3 (a b c : String) : String :=
  if a = "" then (if b = "" then c else b) else a

/-- Embedding of Array.join with a separator. -/
def joinSep (sep : String) : List String → String
  | [] => ""
  | [x] => x
  | x :: y :: rest => x ++ sep ++ joinSep sep (y :: rest)

/-- Embedding of JS Set.add: append the element unless already present. -/
def setAdd (l : List String) (x : String) : List String :=
  if l.contains x then l else l ++ [x]

/-- Embedding of JS Set.delete: remove the element, keeping order. -/
def setRemove (l : List String) (x : String) : List String :=
  l.filter (fun y => y != x)

/-- Flat index entry produced by collectFolders (popup.ts lines 5-10). -/
structure FolderEntry where
  id : String
  name : String
  path : List String
  searchKey : String
deriving DecidableEq, Repr

/-- Node kind of a bookmark tree node. -/
inductive NodeType where
  | folder
  | bookmark
  | separator
deriving DecidableEq, Repr

/-- Host bookmark tree node: id, title, kind and child list. -/
inductive BNode where
  | node (id : String) (title : String) (ntype : NodeType) (children : List BNode)
deriving Repr

/-- Projection of the node id. -/
def BNode.nid : BNode → String
  | .node i _ _ _ => i

/-- Projection of the node children. -/
def BNode.children : BNode → List BNode
  | .node _ _ _ ch => ch

/-- Friendly labels for root containers with empty titles (popup.ts ROOT_LABELS). -/
def rootLabels : List (String × String) :=
  [("root________", "Root"), ("toolbar_____", "Bookmarks Toolbar"),
   ("menu________", "Bookmarks Menu"), ("mobile______", "Mobile Bookmarks"),
   ("unfiled_____", "Other Bookmarks")]

/-- Embedding of resolveFolderName: a non-empty trimmed title verbatim, else the
root-label table, else the fixed fallback label. -/
def resolveFolderName (id title : String) : String :=
  if jsTrim title ≠ "" then title
  else
    match rootLabels.lookup id with
    | some l => l
    | none => "Unnamed folder"

mutual

/-- Loop body of collectFolders for one node: a non-folder node contributes
nothing and its subtree is skipped; a folder node contributes one entry (unless
it is the synthetic root) followed by its recursively collected children. -/
def collectNode : BNode → List String → List FolderEntry
  | BNode.node i t ty ch, trail =>
    if ty ≠ NodeType.folder then []
    else
      let label := resolveFolderName i t
      let nextTrail := trail ++ [label]
      (if i ≠ "root________" then
        [{ id := i, name := label, path := nextTrail, searchKey := jsToLower label }]
       else []) ++ collectFolders ch nextTrail

/-- Embedding of collectFolders (popup.ts lines 138-162): depth-first walk that
skips non-folder nodes together with their subtrees, accumulates the ancestor
name trail, and emits one entry per folder node except the synthetic root id. -/
def collectFolders : List BNode → List String → List FolderEntry
  | [], _ => []
  | n :: rest, trail => collectNode n trail ++ collectFolders rest trail

end

mutual

/-- Contribution of one node to folderIdsSpec. -/
def folderIdsSpecNode : BNode → List String
  | BNode.node i _ ty ch =>
    (if ty = NodeType.folder ∧ i ≠ "root________" then [i] else []) ++ folderIdsSpec ch

/-- Enumeration, written from the claim text, of every folder node id except the
synthetic root, in depth-first order, descending into all child lists. Compared
against the ids collected by collectFolders. -/
def folderIdsSpec : List BNode → List String
  | [] => []
  | n :: rest => folderIdsSpecNode n ++ folderIdsSpec rest

end

mutual

/-- Well-formed host node: non-folder nodes carry no children (true of the host
bookmark API, where only folders have child lists). -/
def wfNode : BNode → Bool
  | .node _ _ ty ch => (decide (ty = NodeType.folder) || ch.isEmpty) && wfNodes ch

/-- Well-formed node list: every node is well-formed. -/
def wfNodes : List BNode → Bool
  | [] => true
  | n :: rest => wfNode n && wfNodes rest

end

/-- Embedding of filterFolders (popup.ts lines 328-332): substring match of the
query against each search key, capped at 100 entries. -/
def filterFolders (allFolders : List FolderEntry) (query : String) : List FolderEntry :=
  (allFolders.filter (fun folder => jsIncludes folder.searchKey query)).take 100

/-- Search operation as driven from the input handler: the query text is
lower-cased before matching (popup.ts line 226). -/
def queryFolders (allFolders : List FolderEntry) (q : String) : List FolderEntry :=
  filterFolders allFolders (jsToLower q)

/-- Embedding of the search-input handler result (popup.ts lines 225-230): the
raw field value is trimmed and lower-cased; an empty effective query renders the
default 50-entry prefix of the index instead of filtering. -/
def searchInputResults (allFolders : List FolderEntry) (value : String) : List FolderEntry :=
  let query := jsToLower (jsTrim value)
  if query = "" then allFolders.take 50 else filterFolders allFolders query

/-- Observable per-row view state maintained by commitRender and buildRow:
checkbox checked/disabled flags, status badge visibility, visual classes, and
the two text fields. -/
structure RowView where
  folderId : String
  checked : Bool
  disabled : Bool
  statusHidden : Bool
  markedExisting : Bool
  markedSelected : Bool
  nameText : String
  pathText : String
deriving DecidableEq, Repr

/-- Display surface: the result list rows in DOM order plus the empty-state
placeholder flag. -/
structure Dom where
  rows : List RowView
  emptyState : Bool
deriving DecidableEq, Repr

/-- Embedding of formatFolderPath (popup.ts lines 334-336). -/
def formatFolderPath (folder : FolderEntry) : String :=
  jsOr (joinSep " / " folder.path.dropLast) "Root"

/-- Per-row field update performed inside commitRender (popup.ts lines 452-493):
an existing-bookmark row is disabled and forced checked with its status badge
shown; otherwise the checkbox mirrors the selection set. -/
def updateRow (existing selected : List String) (folder : FolderEntry) : RowView :=
  let isExisting := existing.contains folder.id
  let isSelected := selected.contains folder.id
  { folderId := folder.id
    checked := if isExisting then true else isSelected
    disabled := isExisting
    statusHidden := !isExisting
    markedExisting := isExisting
    markedSelected := isSelected && !isExisting
    nameText := folder.name
    pathText := formatFolderPath folder }

/-- Embedding of commitRender (popup.ts lines 422-498): an empty result list
replaces the rows with the empty-state placeholder; otherwise rows whose id left
the result set are removed, each result row is created or reused and patched,
and appending in sequence moves every result row to the end in result order. -/
def commitRender (existing selected : List String) (folders : List FolderEntry) (d : Dom) : Dom :=
  if folders.isEmpty then { rows := [], emptyState := true }
  else
    let ids := folders.map FolderEntry.id
    let kept := d.rows.filter (fun r => ids.contains r.folderId)
    let views := folders.map (updateRow existing selected)
    { rows := views.foldl (fun acc v => acc.filter (fun r => r.folderId != v.folderId) ++ [v]) kept
      emptyState := false }

/-- Popup view-model state: the module-level mutable variables of popup.ts. The
commitCount field instruments how many times commitRender has run, so that the
render-coalescing claim can count reconciliations. -/
structure PopupState where
  allFolders : List FolderEntry
  folderLookup : List (String × FolderEntry)
  selectedFolderIds : List String
  existingBookmarkFolderIds : List String
  currentResults : List FolderEntry
  parentResults : List FolderEntry
  activeTabUrl : Option String
  nameInputValue : String
  searchInputValue : String
  createFolderNameValue : String
  createFolderParentSearchValue : String
  selectedParentId : Option String
  createFolderSheetHidden : Bool
  createFolderSubmitDisabled : Bool
  saveButtonDisabled : Bool
  pendingRender : Option (List FolderEntry)
  renderScheduled : Bool
  dom : Dom
  commitCount : Nat
deriving DecidableEq, Repr

/-- Initial values of the popup module state. -/
def initialPopupState : PopupState :=
  { allFolders := []
    folderLookup := []
    selectedFolderIds := []
    existingBookmarkFolderIds := []
    currentResults := []
    parentResults := []
    activeTabUrl := none
    nameInputValue := ""
    searchInputValue := ""
    createFolderNameValue := ""
    createFolderParentSearchValue := ""
    selectedParentId := none
    createFolderSheetHidden := true
    createFolderSubmitDisabled := false
    saveButtonDisabled := false
    pendingRender := none
    renderScheduled := false
    dom := { rows := [], emptyState := false }
    commitCount := 0 }

/-- Embedding of renderResults (popup.ts lines 402-420): record the desired
result list, overwrite the single pending-render slot, and schedule one
animation-frame callback unless one is already scheduled. -/
def renderResults (folders : List FolderEntry) (s : PopupState) : PopupState :=
  let s1 := { s with currentResults := folders, pendingRender := some folders }
  match s1.renderScheduled with
  | true => s1
  | false => { s1 with renderScheduled := true }

/-- Animation-frame callback scheduled by renderResults (popup.ts lines
411-419): clear the scheduled flag, take the pending list, and commit it; the
commit also refreshes the save-button enablement. When no callback is
scheduled, a frame boundary changes nothing. -/
def frame (s : PopupState) : PopupState :=
  match s.renderScheduled with
  | false => s
  | true =>
    match s.pendingRender with
    | none => { s with renderScheduled := false, pendingRender := none }
    | some folders =>
      { s with
        renderScheduled := false
        pendingRender := none
        dom := commitRender s.existingBookmarkFolderIds s.selectedFolderIds folders s.dom
        commitCount := s.commitCount + 1
        saveButtonDisabled := s.selectedFolderIds.isEmpty }

/-- Embedding of toggleSelection (popup.ts lines 695-709): add or remove the id
from the selection set and refresh the save-button enablement. -/
def toggleSelection (s : PopupState) (folderId : String) (shouldSelect : Bool) : PopupState :=
  let sel :=
    if shouldSelect then setAdd s.selectedFolderIds folderId
    else setRemove s.selectedFolderIds folderId
  { s with selectedFolderIds := sel, saveButtonDisabled := sel.isEmpty }

/-- Checkbox click handler built in buildRow (popup.ts lines 345-353): a folder
in the existing-bookmark set is inert; otherwise the checkbox state after the
click is forwarded to toggleSelection. -/
def checkboxClick (s : PopupState) (folderId : String) (checkedAfter : Bool) : PopupState :=
  if s.existingBookmarkFolderIds.contains folderId then s
  else toggleSelection s folderId checkedAfter

/-- Row click handler built in buildRow (popup.ts lines 383-391): a folder in
the existing-bookmark set is inert; otherwise the selection is flipped to the
opposite of its current state. -/
def rowClick (s : PopupState) (folderId : String) : PopupState :=
  if s.existingBookmarkFolderIds.contains folderId then s
  else
    let isActive := s.selectedFolderIds.contains folderId
    toggleSelection s folderId (!isActive)

/-- Search-field input handler (popup.ts lines 225-230). -/
def searchInputHandler (s : PopupState) (value : String) : PopupState :=
  let s0 := { s with searchInputValue := value }
  renderResults (searchInputResults s0.allFolders value) s0

/-- Search clear-button handler (popup.ts lines 252-261). -/
def searchClearClick (s : PopupState) : PopupState :=
  if s.searchInputValue = "" then s
  else renderResults (s.allFolders.take 50) { s with searchInputValue := "" }

/-- Enter-key handler on the search field (popup.ts lines 232-250): add every
currently rendered folder id to the selection, clear the query, and re-render
the default slice. -/
def searchEnterKey (s : PopupState) : PopupState :=
  if s.currentResults.isEmpty then s
  else
    let sel := s.currentResults.foldl (fun acc f => setAdd acc f.id) s.selectedFolderIds
    let s1 := { s with selectedFolderIds := sel, searchInputValue := "" }
    renderResults (s1.allFolders.take 50) s1

/-- Shape of a thrown JS error value as inspected by isInvalidUrlQueryError:
whether it is an Error instance, whether it is an object at all, and its name
and message fields. -/
structure JsError where
  isErrorInstance : Bool
  isObject : Bool
  name : String
  message : String
deriving DecidableEq, Repr

/-- Message fragment identifying the invalid-url structured-query rejection. -/
def invalidUrlFragment : String :=
  ".url must match the format \"url\""

/-- Embedding of isInvalidUrlQueryError (popup.ts lines 206-222): a TypeError
whose message contains the url-format fragment, or any object whose message
field contains that fragment; non-objects never match. -/
def isInvalidUrlQueryError (e : JsError) : Bool :=
  if e.isErrorInstance && (e.name == "TypeError") && jsIncludes e.message invalidUrlFragment then
    true
  else if !e.isObject then false
  else jsIncludes e.message invalidUrlFragment

/-- Bookmark item returned by the host search calls: its url and the id of the
folder containing it. -/
structure FoundBookmark where
  url : Option String
  parentId : Option String
deriving DecidableEq, Repr

/-- Embedding of findExistingBookmarks (popup.ts lines 189-204). The outcome of
the structured host search is passed in as an Except value, and the result list
of the fallback string search as a plain list: on structured success the results
pass through; on the specific invalid-url rejection the string-search results
are filtered to exact url equality; any other error propagates. -/
def findExistingBookmarks (url : String)
    (structured : Except JsError (List FoundBookmark))
    (stringResults : List FoundBookmark) : Except JsError (List FoundBookmark) :=
  match structured with
  | .ok r => .ok r
  | .error e =>
    if !isInvalidUrlQueryError e then .error e
    else .ok (stringResults.filter (fun b => b.url == some url))

/-- Fold step of discoverExistingBookmarks: collect the parent folder id of one
match, skipping bookmarks without a parent id. -/
def addBookmarkParent (acc : List String) (b : FoundBookmark) : List String :=
  match b.parentId with
  | none => acc
  | some p => if p = "" then acc else setAdd acc p

/-- Embedding of discoverExistingBookmarks (popup.ts lines 171-187): with no
active tab url nothing happens; a lookup error is caught and logged, leaving the
existing-bookmark set untouched; on success every parent folder id of a match is
added to the existing-bookmark set. -/
def discoverExistingBookmarks (s : PopupState)
    (structured : Except JsError (List FoundBookmark))
    (stringResults : List FoundBookmark) : PopupState :=
  match s.activeTabUrl with
  | none => s
  | some url =>
    if url = "" then s
    else
      match findExistingBookmarks url structured stringResults with
      | .error _ => s
      | .ok found =>
        { s with existingBookmarkFolderIds :=
            found.foldl addBookmarkParent s.existingBookmarkFolderIds }

/-- Payload of the create-bookmarks runtime message (popup.ts lines 735-742). -/
structure CreateBookmarksPayload where
  folders : List String
  title : String
  url : String
deriving DecidableEq, Repr

/-- Runtime messages sent to the background worker. -/
inductive RuntimeMessage where
  | createBookmarks (payload : CreateBookmarksPayload)
  | createFolder (parentId : String) (title : String)
deriving DecidableEq, Repr

/-- Ordered await and side-effect points of saveBookmarks, used to state the
claim about when the popup closes relative to the message dispatch. -/
inductive SaveEvent where
  | queryActiveTab
  | dispatchMessage
  | awaitBackgroundResponse
  | markFoldersExisting
  | closePopup
deriving DecidableEq, Repr

/-- Result of one saveBookmarks run: the new popup state, the runtime messages
sent, whether window.close was called, and the ordered event trace. -/
structure SaveResult where
  state : PopupState
  msgs : List RuntimeMessage
  closed : Bool
  events : List SaveEvent
deriving DecidableEq, Repr

/-- Embedding of saveBookmarks (popup.ts lines 711-754). The active tab url and
title are passed in as the result of the awaited tab query. An empty selection
returns immediately. A missing or empty tab url throws, is caught and logged,
and the finally block re-enables the save button. Otherwise the title falls
back through trimmed name field, tab title, tab url; one create-bookmarks
message is sent listing every selected folder id; the sendMessage promise is
awaited (and, per the background listener, settles only after the bookmark
writes finish); then every targeted id is added to the existing-bookmark set
and the popup closes. -/
def saveBookmarks (s : PopupState) (tabUrl : Option String) (tabTitle : Option String) :
    SaveResult :=
  if s.selectedFolderIds.isEmpty then
    { state := s, msgs := [], closed := false, events := [] }
  else
    let s1 : PopupState := { s with saveButtonDisabled := true }
    let failed : PopupState := { s1 with saveButtonDisabled := s1.selectedFolderIds.isEmpty }
    match tabUrl with
    | none => { state := failed, msgs := [], closed := false, events := [SaveEvent.queryActiveTab] }
    | some url =>
      if url = "" then
        { state := failed, msgs := [], closed := false, events := [SaveEvent.queryActiveTab] }
      else
        let title := jsOr (jsOr (jsTrim s1.nameInputValue) (tabTitle.getD "")) url
        let targetFolders := s1.selectedFolderIds
        if targetFolders.isEmpty then
          { state := failed, msgs := [], closed := true,
            events := [SaveEvent.queryActiveTab, SaveEvent.closePopup] }
        else
          let s2 : PopupState :=
            { s1 with existingBookmarkFolderIds :=
                targetFolders.foldl setAdd s1.existingBookmarkFolderIds }
          { state := { s2 with saveButtonDisabled := s2.selectedFolderIds.isEmpty }
            msgs := [RuntimeMessage.createBookmarks
              { folders := targetFolders, title := title, url := url }]
            closed := true
            events := [SaveEvent.queryActiveTab, SaveEvent.dispatchMessage,
              SaveEvent.awaitBackgroundResponse, SaveEvent.markFoldersExisting,
              SaveEvent.closePopup] }

/-- One bookmark write performed by the background worker. -/
structure BookmarkWrite where
  parentId : String
  title : String
  url : String
deriving DecidableEq, Repr

/-- What the background onMessage listener returns for a message: nothing, or a
promise that settles only after the listed bookmark writes finish, or a promise
of the created folder. -/
inductive ListenerResponse where
  | noResponse
  | promiseOfBookmarkWrites (writes : List BookmarkWrite)
  | promiseOfFolderCreate (parentId : String) (title : String)
deriving DecidableEq, Repr

/-- Embedding of the background onMessage listener (background script lines
78-105): a create-bookmarks message with a non-empty folder list and url makes
it return the promise of one bookmark write per listed folder, so the reply to
the sender settles only once those writes are done; malformed or empty requests
return no response. -/
def onMessageListener (msg : Option RuntimeMessage) : ListenerResponse :=
  match msg with
  | none => ListenerResponse.noResponse
  | some (RuntimeMessage.createBookmarks p) =>
    if p.folders.isEmpty || p.url = "" then ListenerResponse.noResponse
    else ListenerResponse.promiseOfBookmarkWrites
      (p.folders.map (fun pid => { parentId := pid, title := p.title, url := p.url }))
  | some (RuntimeMessage.createFolder pid t) =>
    if pid = "" || t = "" then ListenerResponse.noResponse
    else ListenerResponse.promiseOfFolderCreate pid t

/-- Lookup in the folderLookup map. -/
def lookupFolder (m : List (String × FolderEntry)) (k : String) : Option FolderEntry :=
  (m.find? (fun p => p.1 == k)).map Prod.snd

/-- Embedding of Map.set on the folderLookup map: replace any binding for the
key and bind it to the new entry. -/
def setFolder (m : List (String × FolderEntry)) (k : String) (v : FolderEntry) :
    List (String × FolderEntry) :=
  m.filter (fun p => p.1 != k) ++ [(k, v)]

/-- Response of the background worker to a create-folder message: the created
node id and optional title, or none when the call failed or returned nothing. -/
structure CreatedNode where
  id : String
  title : Option String
deriving DecidableEq, Repr

/-- Embedding of handleCreateFolderSubmit (popup.ts lines 621-693). The awaited
background response is passed in. An empty trimmed name or a missing parent
choice returns without side effects; a missing response or a response without an
id throws, is caught, and only the submit button is re-enabled. On success the
created entry is added to the index directly after its parent (or at the front
when the parent is not found), registered in the lookup map, added to the
selection set, merged at the head of the current results, rendered, and the
sheet is closed with its transient state cleared. -/
def handleCreateFolderSubmit (s : PopupState) (resp : Option CreatedNode) : PopupState :=
  let name := jsTrim s.createFolderNameValue
  if name = "" then s
  else
    match s.selectedParentId with
    | none => s
    | some parentId =>
      let s0 : PopupState := { s with createFolderSubmitDisabled := true }
      match resp with
      | none => { s0 with createFolderSubmitDisabled := false }
      | some created =>
        if created.id = "" then { s0 with createFolderSubmitDisabled := false }
        else
          let createdName := jsOr (jsTrim ((created.title).getD "")) name
          let parentEntry := lookupFolder s0.folderLookup parentId
          let parentPath :=
            match parentEntry with
            | some pe => pe.path
            | none => []
          let newEntry : FolderEntry :=
            { id := created.id, name := createdName,
              path := parentPath ++ [createdName], searchKey := jsToLower createdName }
          let parentIdx :=
            match parentEntry with
            | some pe => s0.allFolders.findIdx? (fun entry => entry.id == pe.id)
            | none => none
          let allFolders1 :=
            match parentIdx with
            | some i => s0.allFolders.take (i + 1) ++ [newEntry] ++ s0.allFolders.drop (i + 1)
            | none => newEntry :: s0.allFolders
          let sel := setAdd s0.selectedFolderIds newEntry.id
          let refreshed :=
            (newEntry :: s0.currentResults.filter (fun f => f.id != newEntry.id)).take 50
          let s1 : PopupState :=
            { s0 with
              allFolders := allFolders1
              folderLookup := setFolder s0.folderLookup newEntry.id newEntry
              selectedFolderIds := sel }
          let s2 := renderResults refreshed s1
          { s2 with
            createFolderSheetHidden := true
            createFolderNameValue := ""
            createFolderParentSearchValue := ""
            selectedParentId := none
            parentResults := []
            searchInputValue := ""
            saveButtonDisabled := sel.isEmpty
            createFolderSubmitDisabled := false }

/-- Concrete popup state for the save scenario: ids 1 and 2 selected, name
field holding Example. -/
def c1state : PopupState :=
  { initialPopupState with selectedFolderIds := ["1", "2"], nameInputValue := "Example" }

/-- Concrete popup state for the close-timing scenario: one selected folder. -/
def c2state : PopupState :=
  { initialPopupState with selectedFolderIds := ["1"], nameInputValue := "Example" }

/-- Concrete host tree: the synthetic root holding a folder with a bookmark
child and a nested folder, plus a separator. -/
def c3tree : List BNode :=
  [BNode.node "root________" "" NodeType.folder
    [BNode.node "1" "Toolbar" NodeType.folder
      [BNode.node "b1" "A page" NodeType.bookmark [],
       BNode.node "2" "Work" NodeType.folder []],
     BNode.node "s1" "" NodeType.separator []]]

/-- Concrete flat index used for the query-property witness. -/
def c4index : List FolderEntry :=
  [{ id := "1", name := "Toolbar", path := ["Toolbar"], searchKey := "toolbar" },
   { id := "2", name := "Work", path := ["Toolbar", "Work"], searchKey := "work" }]

/-- Concrete host tree of the ancestor-match scenario: folder Toolbar (id 1)
holding folder Work (id 2). -/
def c5tree : List BNode :=
  [BNode.node "1" "Toolbar" NodeType.folder [BNode.node "2" "Work" NodeType.folder []]]

/-- Flat index built from the ancestor-match scenario tree. -/
def c5index : List FolderEntry := collectFolders c5tree []

/-- Concrete popup state with folder id 2 already holding a bookmark. -/
def c7state : PopupState :=
  { initialPopupState with existingBookmarkFolderIds := ["2"], selectedFolderIds := ["1"] }

/-- Concrete folder entry for the inert-row witness. -/
def c7entry : FolderEntry :=
  { id := "2", name := "Work", path := ["Toolbar", "Work"], searchKey := "work" }

/-- Concrete popup state with the create-folder sheet filled in. -/
def c8state : PopupState :=
  { initialPopupState with createFolderNameValue := "New", selectedParentId := some "1" }

/-- Concrete non-url-format error, as thrown by an unrelated host failure. -/
def c9err : JsError :=
  { isErrorInstance := true, isObject := true, name := "Error",
    message := "unexpected failure" }

/-- Concrete flat index used for the trimmed-query witness. -/
def c10index : List FolderEntry :=
  [{ id := "1", name := "Toolbar", path := ["Toolbar"], searchKey := "toolbar" },
   { id := "2", name := "Work", path := ["Toolbar", "Work"], searchKey := "work" }]

/-- Empty lists are exactly the lists whose isEmpty flag is true. -/
theorem isEmpty_false_of_ne_nil {α : Type} (l : List α) (h : l ≠ []) : l.isEmpty = false := by
  cases l with
  | nil => exact absurd rfl h
  | cons a t => rfl

/-- The left-nested JS or-chain is the first non-empty of the three strings. -/
theorem jsOr_jsOr_eq_firstNonempty3 (a b c : String) :
    jsOr (jsOr a b) c = firstNonempty3 a b c := by
  by_cases ha : a = "" <;> by_cases hb : b = "" <;>
    simp [jsOr, firstNonempty3, ha, hb]

/-- Adding an element to a JS set makes it a member. -/
theorem mem_setAdd_self (l : List String) (x : String) : x ∈ setAdd l x := by
  unfold setAdd
  split
  · next h => exact List.elem_iff.mp h
  · exact List.mem_append_right _ (List.mem_singleton.mpr rfl)

/-- Adding an element to a JS set keeps the existing members. -/
theorem mem_setAdd_of_mem (l : List String) (x y : String) (h : y ∈ l) : y ∈ setAdd l x := by
  unfold setAdd
  split
  · exact h
  · exact List.mem_append_left _ h

/-- Folding setAdd over a list keeps the initial members. -/
theorem mem_foldl_setAdd_of_mem_init (l : List String) (init : List String) (y : String)
    (h : y ∈ init) : y ∈ l.foldl setAdd init := by
  induction l generalizing init with
  | nil => exact h
  | cons a t ih => exact ih _ (mem_setAdd_of_mem _ _ _ h)

/-- Folding setAdd over a list adds every element of that list. -/
theorem mem_foldl_setAdd_of_mem (l : List String) (init : List String) (y : String)
    (h : y ∈ l) : y ∈ l.foldl setAdd init := by
  induction l generalizing init with
  | nil => cases h
  | cons a t ih =>
    rcases List.mem_cons.mp h with rfl | hy
    · exact mem_foldl_setAdd_of_mem_init t (setAdd init y) y (mem_setAdd_self init y)
    · exact ih _ hy

mutual

/-- On a well-formed node, collectNode emits exactly the folder-node ids of that
subtree except the synthetic root, in depth-first order. -/
theorem collectNode_ids : ∀ (n : BNode) (trail : List String), wfNode n = true →
    (collectNode n trail).map FolderEntry.id = folderIdsSpecNode n
  | BNode.node i t ty ch, trail, h => by
    have hsplit : (decide (ty = NodeType.folder) || ch.isEmpty) = true ∧ wfNodes ch = true := by
      simpa [wfNode, Bool.and_eq_true] using h
    by_cases hty : ty = NodeType.folder
    · have ih := collectFolders_ids ch (trail ++ [resolveFolderName i t]) hsplit.2
      by_cases hid : i = "root________"
      · subst hid
        simp [collectNode, folderIdsSpecNode, hty, ih]
      · simp [collectNode, folderIdsSpecNode, hty, hid, ih]
    · have hch : ch = [] := by simpa [hty] using hsplit.1
      simp [collectNode, folderIdsSpecNode, hty, hch, folderIdsSpec]

/-- On a well-formed node list, collectFolders emits exactly the folder-node
ids except the synthetic root, in depth-first order. -/
theorem collectFolders_ids : ∀ (ns : List BNode) (trail : List String), wfNodes ns = true →
    (collectFolders ns trail).map FolderEntry.id = folderIdsSpec ns
  | [], _, _ => rfl
  | n :: rest, trail, h => by
    have hsplit : wfNode n = true ∧ wfNodes rest = true := by
      simpa [wfNodes, Bool.and_eq_true] using h
    have ih1 := collectNode_ids n trail hsplit.1
    have ih2 := collectFolders_ids rest trail hsplit.2
    simp [collectFolders, folderIdsSpec, ih1, ih2]

end

mutual

/-- The synthetic root id never occurs in the folder-id enumeration of a node. -/
theorem root_not_mem_folderIdsSpecNode : ∀ n : BNode,
    "root________" ∉ folderIdsSpecNode n
  | BNode.node i t ty ch => by
    have ih := root_not_mem_folderIdsSpec ch
    by_cases hc : ty = NodeType.folder ∧ i ≠ "root________" <;>
      simp [folderIdsSpecNode, hc, ih]
    intro he
    exact hc.2 he.symm

/-- The synthetic root id never occurs in the folder-id enumeration of a list. -/
theorem root_not_mem_folderIdsSpec : ∀ ns : List BNode,
    "root________" ∉ folderIdsSpec ns
  | [] => by simp [folderIdsSpec]
  | n :: rest => by
    have ih1 := root_not_mem_folderIdsSpecNode n
    have ih2 := root_not_mem_folderIdsSpec rest
    simp [folderIdsSpec, ih1, ih2]

end

/-- Lower-casing never turns a non-empty string empty or an empty one
non-empty. -/
theorem jsToLower_eq_empty_iff (s : String) : jsToLower s = "" ↔ s = "" := by
  cases s with
  | mk data =>
    constructor
    · intro h
      have hd : data.map jsLowerChar = [] := congrArg String.data h
      have : data = [] := List.map_eq_nil_iff.mp hd
      simp [this]
    · intro h
      simp [jsToLower, show data = [] from congrArg String.data h]

/-- The renderResults declaration never touches the selection set. -/
theorem renderResults_selected (folders : List FolderEntry) (s : PopupState) :
    (renderResults folders s).selectedFolderIds = s.selectedFolderIds := by
  cases hs : s.renderScheduled <;> simp [renderResults, hs]

/-- The animation-frame commit never touches the selection set. -/
theorem frame_selected (s : PopupState) :
    (frame s).selectedFolderIds = s.selectedFolderIds := by
  cases hs : s.renderScheduled <;> cases hp : s.pendingRender <;> simp [frame, hs, hp]

/-- C3: for every well-formed input folder tree, the flattened index built by
collectFolders excludes the synthetic root id, excludes every non-folder node,
and contains exactly one entry per remaining folder node, in depth-first
traversal order with children in host-provided order: its id sequence equals the
depth-first enumeration of the non-root folder-node ids. -/
theorem c3_flat_index_exactly_folders (ns : List BNode) (trail : List String)
    (h : wfNodes ns = true) :
    (collectFolders ns trail).map FolderEntry.id = folderIdsSpec ns
  ∧ "root________" ∉ (collectFolders ns trail).map FolderEntry.id := by
  have he := collectFolders_ids ns trail h
  exact ⟨he, he ▸ root_not_mem_folderIdsSpec ns⟩

/-- Witness for C3 on a concrete tree holding the synthetic root, a bookmark
and a separator. -/
theorem c3_flat_index_exactly_folders_witness :
    wfNodes c3tree = true
  ∧ ((collectFolders c3tree []).map FolderEntry.id = folderIdsSpec c3tree
      ∧ "root________" ∉ (collectFolders c3tree []).map FolderEntry.id) :=
  ⟨by decide, c3_flat_index_exactly_folders c3tree [] (by decide)⟩

/-- C4: for every non-empty query string, every returned entry has the
lower-cased query as a substring of its search key, the result is a subsequence
of the index in original order, and at most 100 entries are returned. -/
theorem c4_query_soundness (idx : List FolderEntry) (q : String) (_hq : q ≠ "") :
    (∀ e ∈ queryFolders idx q, jsIncludes e.searchKey (jsToLower q) = true)
  ∧ (queryFolders idx q).Sublist idx
  ∧ (queryFolders idx q).length ≤ 100 := by
  refine ⟨?_, ?_, ?_⟩
  · intro e he
    simp only [queryFolders, filterFolders] at he
    exact (List.mem_filter.mp (List.mem_of_mem_take he)).2
  · simp only [queryFolders, filterFolders]
    exact (List.take_sublist _ _).trans (List.filter_sublist _)
  · simp only [queryFolders, filterFolders]
    exact List.length_take_le _ _

/-- Witness for C4 at a concrete index and the query Work. -/
theorem c4_query_soundness_witness :
    (queryFolders c4index "Work").Sublist c4index
  ∧ (queryFolders c4index "Work").length ≤ 100 :=
  (c4_query_soundness c4index "Work" (by decide)).2

/-- C5 counterexample: on the tree with folder Toolbar (id 1) holding folder
Work (id 2), the query toolbar does not return both entries, contradicting the
claimed ancestor-name match: the search key indexes only the folder name. -/
theorem c5_ancestor_match_cex :
    (queryFolders c5index "toolbar").map FolderEntry.id ≠ ["1", "2"] := by decide

/-- C5 amended: on that tree, query work returns exactly the Work entry and
query toolbar returns exactly the Toolbar entry, because each search key holds
only the lower-cased folder name, so an ancestor name does not match descendant
entries. -/
theorem c5_own_name_match :
    (queryFolders c5index "work").map FolderEntry.id = ["2"]
  ∧ (queryFolders c5index "toolbar").map FolderEntry.id = ["1"] :=
  ⟨by decide, by decide⟩

/-- C6: issuing renderResults with list A then list B before the next frame
leaves the display surface untouched and performs no reconciliation until the
frame fires, at which point exactly one reconciliation commits the state of B;
and a repeated identical renderResults call leaves the popup state unchanged, so
it commits the same state. -/
theorem c6_render_coalescing (s : PopupState) (a b : List FolderEntry) :
    (renderResults b (renderResults a s)).dom = s.dom
  ∧ (renderResults b (renderResults a s)).commitCount = s.commitCount
  ∧ (frame (renderResults b (renderResults a s))).dom
      = commitRender s.existingBookmarkFolderIds s.selectedFolderIds b s.dom
  ∧ (frame (renderResults b (renderResults a s))).commitCount = s.commitCount + 1
  ∧ renderResults b (renderResults b s) = renderResults b s := by
  cases hs : s.renderScheduled <;> simp [renderResults, frame, hs]

/-- C7: a folder id in the existing-bookmark set is inert: both the checkbox
click and the row click leave the selection set unchanged, and its rendered row
is disabled and forced checked. -/
theorem c7_existing_rows_inert (s : PopupState) (folder : FolderEntry)
    (checkedAfter : Bool)
    (h : s.existingBookmarkFolderIds.contains folder.id = true) :
    (checkboxClick s folder.id checkedAfter).selectedFolderIds = s.selectedFolderIds
  ∧ (rowClick s folder.id).selectedFolderIds = s.selectedFolderIds
  ∧ (updateRow s.existingBookmarkFolderIds s.selectedFolderIds folder).disabled = true
  ∧ (updateRow s.existingBookmarkFolderIds s.selectedFolderIds folder).checked = true := by
  have hm : folder.id ∈ s.existingBookmarkFolderIds := by simpa using h
  refine ⟨?_, ?_, ?_, ?_⟩ <;> simp [checkboxClick, rowClick, updateRow, hm]

/-- Witness for C7 at a concrete state where folder id 2 holds a bookmark. -/
theorem c7_existing_rows_inert_witness :
    (checkboxClick c7state c7entry.id true).selectedFolderIds = c7state.selectedFolderIds
  ∧ (rowClick c7state c7entry.id).selectedFolderIds = c7state.selectedFolderIds
  ∧ (updateRow c7state.existingBookmarkFolderIds c7state.selectedFolderIds c7entry).disabled = true
  ∧ (updateRow c7state.existingBookmarkFolderIds c7state.selectedFolderIds c7entry).checked = true :=
  c7_existing_rows_inert c7state c7entry true (by decide)

/-- C1: with a non-empty selection and a resolvable active-tab url, one save
run sends exactly one create-bookmarks message whose folders field lists exactly
the selected folder ids, whose title is the first non-empty of the trimmed name
field, the tab title and the tab url, and whose url is the tab url; and every
targeted folder id ends up in the existing-bookmark set. -/
theorem c1_save_dispatch (s : PopupState) (url : String) (tabTitle : Option String)
    (hsel : s.selectedFolderIds ≠ []) (hurl : url ≠ "") :
    (saveBookmarks s (some url) tabTitle).msgs
      = [RuntimeMessage.createBookmarks
          { folders := s.selectedFolderIds
            title := firstNonempty3 (jsTrim s.nameInputValue) (tabTitle.getD "") url
            url := url }]
  ∧ (saveBookmarks s (some url) tabTitle).state.existingBookmarkFolderIds
      = s.selectedFolderIds.foldl setAdd s.existingBookmarkFolderIds
  ∧ ∀ fid ∈ s.selectedFolderIds,
      fid ∈ (saveBookmarks s (some url) tabTitle).state.existingBookmarkFolderIds := by
  have hempty : s.selectedFolderIds.isEmpty = false := isEmpty_false_of_ne_nil _ hsel
  have hex : (saveBookmarks s (some url) tabTitle).state.existingBookmarkFolderIds
      = s.selectedFolderIds.foldl setAdd s.existingBookmarkFolderIds := by
    simp [saveBookmarks, hempty, hurl]
  refine ⟨?_, hex, ?_⟩
  · simp [saveBookmarks, hempty, hurl, jsOr_jsOr_eq_firstNonempty3]
  · intro fid hf
    rw [hex]
    exact mem_foldl_setAdd_of_mem _ _ _ hf

/-- Witness for C1 at the spec scenario: ids 1 and 2 selected, name field
Example, tab url https://e.co. -/
theorem c1_save_dispatch_witness :
    (saveBookmarks c1state (some "https://e.co") (some "Example Title")).msgs
      = [RuntimeMessage.createBookmarks
          { folders := ["1", "2"], title := "Example", url := "https://e.co" }]
  ∧ (saveBookmarks c1state (some "https://e.co")
        (some "Example Title")).state.existingBookmarkFolderIds = ["1", "2"] := by
  have h := c1_save_dispatch c1state "https://e.co" (some "Example Title")
    (by decide) (by decide)
  exact ⟨h.1.trans (by decide), h.2.1.trans (by decide)⟩

/-- C2: at the concrete save scenario, the popup awaits the background response
between dispatching the create-bookmarks message and closing, and the
background listener answers that very message with a promise that settles only
after the bookmark writes; so the popup does not close immediately after
dispatch but waits for the writes, contradicting the fire-and-forget claim and
the repository README. -/
theorem c2_close_awaits_background_response :
    (saveBookmarks c2state (some "https://e.co") (some "Example")).events
      = [SaveEvent.queryActiveTab, SaveEvent.dispatchMessage,
         SaveEvent.awaitBackgroundResponse, SaveEvent.markFoldersExisting,
         SaveEvent.closePopup]
  ∧ onMessageListener (some (RuntimeMessage.createBookmarks
      { folders := ["1"], title := "Example", url := "https://e.co" }))
      = ListenerResponse.promiseOfBookmarkWrites
          [{ parentId := "1", title := "Example", url := "https://e.co" }] :=
  ⟨by decide, by decide⟩

/-- C9: existing-bookmark discovery uses the structured search result when it
succeeds; when the structured search fails it falls back to the string search
filtered to exact url equality exactly when the error is the invalid-url-format
rejection, and propagates every other error, which the discovery step catches
while leaving the existing-bookmark set untouched. -/
theorem c9_discovery_fallback (url : String) (r : List FoundBookmark) (e : JsError)
    (ss : List FoundBookmark) (s : PopupState) :
    findExistingBookmarks url (Except.ok r) ss = Except.ok r
  ∧ findExistingBookmarks url (Except.error e) ss
      = (if isInvalidUrlQueryError e
         then Except.ok (ss.filter (fun b => b.url == some url))
         else Except.error e)
  ∧ (isInvalidUrlQueryError e = false →
      (discoverExistingBookmarks { s with activeTabUrl := some url }
        (Except.error e) ss).existingBookmarkFolderIds
        = s.existingBookmarkFolderIds) := by
  refine ⟨rfl, ?_, ?_⟩
  · by_cases h : isInvalidUrlQueryError e <;> simp [findExistingBookmarks, h]
  · intro h
    by_cases hu : url = "" <;>
      simp [discoverExistingBookmarks, findExistingBookmarks, h, hu]

/-- Witness for C9: a non-format error leaves the existing-bookmark set empty. -/
theorem c9_discovery_fallback_witness :
    (discoverExistingBookmarks { initialPopupState with activeTabUrl := some "about:config" }
      (Except.error c9err) []).existingBookmarkFolderIds = [] := by
  have h := c9_discovery_fallback "about:config" [] c9err [] initialPopupState
  exact (h.2.2 (by decide)).trans rfl

/-- C10: the query actually matched is the trimmed field value lower-cased, so
two inputs with equal trims return the same folders, a whitespace-only input
renders the default 50-entry prefix of the index rather than matching no
folders, and a non-whitespace input filters by the trimmed lower-cased query. -/
theorem c10_trimmed_query (idx : List FolderEntry) (s t : String) :
    (jsTrim s = jsTrim t → searchInputResults idx s = searchInputResults idx t)
  ∧ (jsTrim s = "" → searchInputResults idx s = idx.take 50)
  ∧ (jsTrim s ≠ "" →
      searchInputResults idx s = filterFolders idx (jsToLower (jsTrim s))) := by
  refine ⟨?_, ?_, ?_⟩
  · intro h
    simp [searchInputResults, h]
  · intro h
    have : jsToLower (jsTrim s) = "" := (jsToLower_eq_empty_iff _).mpr h
    simp [searchInputResults, this]
  · intro h
    have hne : jsToLower (jsTrim s) ≠ "" := fun hc => h ((jsToLower_eq_empty_iff _).mp hc)
    simp [searchInputResults, hne]

/-- Witness for C10: padding around the query does not change the result and a
whitespace-only input yields the default prefix. -/
theorem c10_trimmed_query_witness :
    searchInputResults c10index "  Work " = searchInputResults c10index "Work"
  ∧ searchInputResults c10index "   " = c10index.take 50 := by
  have h1 := c10_trimmed_query c10index "  Work " "Work"
  have h2 := c10_trimmed_query c10index "   " "Work"
  exact ⟨h1.1 (by decide), h2.2.1 (by decide)⟩

/-- C8 counterexample: a successful create-folder submission is neither a
per-row toggle nor the select-all shortcut, yet it changes the selection set by
auto-selecting the newly created folder id. -/
theorem c8_create_folder_mutates_selection_cex :
    (handleCreateFolderSubmit c8state
      (some { id := "9", title := some "New" })).selectedFolderIds
      ≠ c8state.selectedFolderIds := by decide

/-- C8 amended: besides the per-row toggles and the select-all-visible
shortcut, the only operation mutating the selection set is a successful
create-folder submission, which only inserts the created folder id; search
input, search clear, render declaration, frame commit, save dispatch and
existing-bookmark discovery all leave the selection set unchanged. -/
theorem c8_selection_mutation_sources (s : PopupState) (value : String)
    (folders : List FolderEntry) (tabUrl tabTitle : Option String)
    (structured : Except JsError (List FoundBookmark))
    (stringResults : List FoundBookmark) (resp : Option CreatedNode) :
    (searchInputHandler s value).selectedFolderIds = s.selectedFolderIds
  ∧ (searchClearClick s).selectedFolderIds = s.selectedFolderIds
  ∧ (renderResults folders s).selectedFolderIds = s.selectedFolderIds
  ∧ (frame s).selectedFolderIds = s.selectedFolderIds
  ∧ (saveBookmarks s tabUrl tabTitle).state.selectedFolderIds = s.selectedFolderIds
  ∧ (discoverExistingBookmarks s structured stringResults).selectedFolderIds
      = s.selectedFolderIds
  ∧ ((handleCreateFolderSubmit s resp).selectedFolderIds = s.selectedFolderIds
      ∨ ∃ cid, (handleCreateFolderSubmit s resp).selectedFolderIds
          = setAdd s.selectedFolderIds cid) := by
  refine ⟨?_, ?_, renderResults_selected folders s, frame_selected s, ?_, ?_, ?_⟩
  · simpa [searchInputHandler] using
      renderResults_selected (searchInputResults s.allFolders value)
        { s with searchInputValue := value }
  · by_cases h : s.searchInputValue = "" <;>
      simp [searchClearClick, h, renderResults_selected]
  · rcases tabUrl with _ | url
    · by_cases h : s.selectedFolderIds.isEmpty <;> simp [saveBookmarks, h]
    · by_cases h : s.selectedFolderIds.isEmpty <;> by_cases hu : url = "" <;>
        simp [saveBookmarks, h, hu]
  · rcases ht : s.activeTabUrl with _ | url
    · simp [discoverExistingBookmarks, ht]
    · by_cases hu : url = ""
      · simp [discoverExistingBookmarks, ht, hu]
      · rcases hf : findExistingBookmarks url structured stringResults with e' | found <;>
          simp [discoverExistingBookmarks, ht, hu, hf]
  · by_cases h1 : jsTrim s.createFolderNameValue = ""
    · left
      simp [handleCreateFolderSubmit, h1]
    · rcases hp : s.selectedParentId with _ | pid
      · left
        simp [handleCreateFolderSubmit, h1, hp]
      · rcases resp with _ | created
        · left
          simp [handleCreateFolderSubmit, h1, hp]
        · by_cases hc : created.id = ""
          · left
            simp [handleCreateFolderSubmit, h1, hp, hc]
          · right
            refine ⟨created.id, ?_⟩
            simp [handleCreateFolderSubmit, h1, hp, hc, renderResults_selected]

end Bookmarker
